import Mathlib

/-!
Verification development for the onediff graph-compilation caching and
dispatch core (repository `onediff`, files
`onediff_sd_webui_extensions/scripts/onediff.py`,
`src/onediff/infer_compiler/__init__.py`,
`src/onediff/infer_compiler/oneflow/deployable_module.py`).

The Python source is shallowly embedded: pure functions become Lean
functions, mutable object state becomes explicit state passing over
structures, Python exceptions become `Except`/error-message results, and
Python dictionaries become insertion-ordered association lists.
External collaborators whose code is not part of the repository snapshot
(the oneflow runtime, the webui host, the quantization package) are
modelled from the interfaces the specification gives them; every such
definition carries a doc comment saying so.
-/

namespace OneDiff

/-- Equality on `Except` results is decidable when it is on both sides. -/
instance {ε α : Type} [DecidableEq ε] [DecidableEq α] : DecidableEq (Except ε α) := fun
  | .ok a, .ok b =>
    match decEq a b with
    | isTrue h => isTrue (by rw [h])
    | isFalse h => isFalse (by intro hh; cases hh; exact h rfl)
  | .ok _, .error _ => isFalse (by intro h; cases h)
  | .error _, .ok _ => isFalse (by intro h; cases h)
  | .error e, .error f =>
    match decEq e f with
    | isTrue h => isTrue (by rw [h])
    | isFalse h => isFalse (by intro hh; cases hh; exact h rfl)

/-! ## Python string primitives

The extension parses calibration files with `str.strip`, `str.split(" ")`,
`str.split(",")`, `float(...)` and `int(...)`, and reads files with
`readlines`.  These are embedded as kernel-computable functions over the
character list underlying a `String`. -/

/-- Split a character list at every occurrence of the separator, mirroring
Python `str.split(sep)` with a one-character separator: consecutive
separators produce empty pieces, and the result is always nonempty. -/
def splitListOn (sep : Char) : List Char → List (List Char)
  | [] => [[]]
  | c :: cs =>
    if c = sep then [] :: splitListOn sep cs
    else
      match splitListOn sep cs with
      | [] => [[c]]
      | piece :: rest => (c :: piece) :: rest

/-- Python `str.split(sep)` for a one-character separator, on `String`. -/
def pySplit (sep : Char) (s : String) : List String :=
  (splitListOn sep s.data).map List.asString

/-- Whitespace characters stripped by Python `str.strip()` (the ones that
can occur in the files at hand). -/
def isPyWhitespace (c : Char) : Bool :=
  c = ' ' || c = '\n' || c = '\t' || c = '\r'

/-- Python `str.strip()`: remove leading and trailing whitespace. -/
def pyStrip (s : String) : String :=
  (((s.data.dropWhile isPyWhitespace).reverse.dropWhile isPyWhitespace).reverse).asString

/-- Numeric value of a digit string (most significant digit first). -/
def digitsVal (l : List Char) : Nat :=
  l.foldl (fun a c => a * 10 + (c.toNat - '0'.toNat)) 0

/-- A plain decimal literal, decomposed: negativity flag, integer-part
value, fraction-part value, and number of fraction digits.  This is the
kernel-computable form in which parsed `float(...)` values travel until
they are interpreted as exact rationals. -/
structure FloatParts where
  neg : Bool
  intPart : Nat
  fracPart : Nat
  fracLen : Nat
deriving DecidableEq, Repr

/-- Decidable part of Python `float(s)` for plain decimal literals
(optional sign, digits, optional fraction); `none` where Python raises
`ValueError`. -/
def pyFloatParts (s : String) : Option FloatParts :=
  let (neg, l) : Bool × List Char :=
    match s.data with
    | '-' :: rest => (true, rest)
    | '+' :: rest => (false, rest)
    | l => (false, l)
  match splitListOn '.' l with
  | [ip] =>
    if ip ≠ [] ∧ ip.all Char.isDigit then some ⟨neg, digitsVal ip, 0, 0⟩ else none
  | [ip, fp] =>
    if (ip ≠ [] ∨ fp ≠ []) ∧ ip.all Char.isDigit ∧ fp.all Char.isDigit then
      some ⟨neg, digitsVal ip, digitsVal fp, fp.length⟩
    else none
  | _ => none

/-- Exact rational value of a parsed decimal literal. -/
def floatOfParts (p : FloatParts) : ℚ :=
  (if p.neg then -1 else 1) * ((p.intPart : ℚ) + (p.fracPart : ℚ) / (10 ^ p.fracLen : ℚ))

/-- Python `float(s)` restricted to the plain decimal literals used by the
calibration files, with the value represented exactly as a rational. -/
def pyFloat (s : String) : Option ℚ :=
  (pyFloatParts s).map floatOfParts

/-- Python `int(s)` for decimal literals with optional sign; `none` where
Python raises `ValueError`. -/
def pyInt (s : String) : Option ℤ :=
  let (neg, l) : Bool × List Char :=
    match s.data with
    | '-' :: rest => (true, rest)
    | '+' :: rest => (false, rest)
    | l => (false, l)
  if l ≠ [] ∧ l.all Char.isDigit then
    some ((if neg then -1 else 1) * (digitsVal l : ℤ))
  else none

/-- Python `file.readlines()` on a file's full content: split at newlines;
a trailing newline does not produce an extra empty line.  (The trailing
`"\n"` Python keeps on each line is dropped here, because every caller
strips the line immediately.) -/
def pyReadLines (s : String) : List String :=
  let parts := splitListOn '\n' s.data
  let parts := if parts.getLast? = some [] then parts.dropLast else parts
  parts.map List.asString

/-- Insertion into a Python `dict` modelled as an insertion-ordered
association list: replace in place if the key is present, else append. -/
def dictInsert {α : Type} (k : String) (v : α) : List (String × α) → List (String × α)
  | [] => [(k, v)]
  | (k₀, v₀) :: rest =>
    if k₀ = k then (k, v) :: rest else (k₀, v₀) :: dictInsert k v rest

/-! ## Calibration-file parsing (`get_calibrate_info`)

Source: `onediff_sd_webui_extensions/scripts/onediff.py`, lines 42-58.
The filesystem is embedded as an `Option String`: `none` when the
calibration path does not exist, `some content` when it does.  Parse
failures Python would raise (`IndexError` on a short line, `ValueError`
from `float`/`int`) become `Except.error`. -/

/-- One parsed calibration entry: scale, zero point, list of floats. -/
abbrev CalEntry := ℚ × ℤ × List ℚ

/-- A calibration entry with the float values still in their exact decimal
form.  The parsing loop carries entries in this kernel-computable form;
`get_calibrate_info` interprets them as rationals at the end, which is the
same function as interpreting each `float(...)` on the spot, since the
dictionary is keyed by the (string) names only. -/
structure CalEntryParts where
  scale : FloatParts
  zeroPoint : ℤ
  floats : List FloatParts
deriving DecidableEq, Repr

/-- Rational interpretation of a parsed calibration entry. -/
def entryOfParts (e : CalEntryParts) : CalEntry :=
  (floatOfParts e.scale, e.zeroPoint, e.floats.map floatOfParts)

/-- Field extraction of one calibration line: strip, split on single
spaces, and take `items[0] items[1] items[2] items[3]` (Python indexing
ignores any further items); `none` where Python raises `IndexError`. -/
def calLineFields (line : String) : Option (String × String × String × String) :=
  match pySplit ' ' (pyStrip line) with
  | name :: s₁ :: s₂ :: s₃ :: _ => some (name, s₁, s₂, s₃)
  | _ => none

/-- `[float(x) for x in items[3].split(",")]`, at the decimal-parts level. -/
def pyFloatPartsList : List String → Option (List FloatParts)
  | [] => some []
  | s :: rest =>
    match pyFloatParts s, pyFloatPartsList rest with
    | some p, some ps => some (p :: ps)
    | _, _ => none

/-- Parse one calibration line into `name`, `float(items[1])`,
`int(items[2])` and the float list of `items[3]`. -/
def parseCalLine (line : String) : Except String (String × CalEntryParts) :=
  match calLineFields line with
  | none => .error "IndexError"
  | some (name, s₁, s₂, s₃) =>
    match pyFloatParts s₁, pyInt s₂, pyFloatPartsList (pySplit ',' s₃) with
    | some scale, some zeroPoint, some floats => .ok (name, ⟨scale, zeroPoint, floats⟩)
    | _, _, _ => .error "ValueError"

/-- The `for line in f.readlines()` loop of `get_calibrate_info`,
threading the dictionary; the first parse failure aborts the loop the way
a Python exception would. -/
def buildCalDict : List String → List (String × CalEntryParts) →
    Except String (List (String × CalEntryParts))
  | [], acc => .ok acc
  | line :: rest, acc =>
    match parseCalLine line with
    | .ok (n, e) => buildCalDict rest (dictInsert n e acc)
    | .error msg => .error msg

/-- `get_calibrate_info(filename)`: `none` when the calibration file does
not exist; otherwise the dictionary built by parsing every line in order,
with every float value interpreted as an exact rational. -/
def get_calibrate_info (file : Option String) :
    Option (Except String (List (String × CalEntry))) :=
  file.map fun content =>
    (buildCalDict (pyReadLines content) []).map fun d =>
      d.map fun (n, e) => (n, entryOfParts e)

/-! ## UNet compilation (`compile_unet`)

Source: `onediff_sd_webui_extensions/scripts/onediff.py`, lines 61-88.
`compile_unet` dispatches on `isinstance` checks against the LDM and SGM
`UNetModel` classes and otherwise warns and keeps the module uncompiled;
with `quantization` it then runs the quantization collaborator on the
result, handing it the parsed calibration info (or `None`). -/

/-- The module architectures `compile_unet` distinguishes by
`isinstance`: the LDM `UNetModel`, the SGM `UNetModel`, or anything else.
The `Nat` payload stands for the identity of the concrete Python object. -/
inductive UNetModule where
  | ldm (id : Nat)
  | sgm (id : Nat)
  | other (id : Nat)
deriving DecidableEq, Repr

/-- Whether the module is an LDM `UNetModel`. -/
def UNetModule.isLdm : UNetModule → Bool
  | .ldm _ => true
  | _ => false

/-- Whether the module is an SGM `UNetModel`. -/
def UNetModule.isSgm : UNetModule → Bool
  | .sgm _ => true
  | _ => false

/-- Values the `compiled_unet` variable of `compile_unet` can hold: the
original module itself (unsupported type), the result of one of the two
external compile services, or a quantized wrapping of either. -/
inductive CompiledModule where
  | raw (m : UNetModule)
  | ldmCompiled (m : UNetModule) (use_graph : Bool)
  | sgmCompiled (m : UNetModule) (use_graph : Bool)
  | quantized (c : CompiledModule) (calibrate_info : Option (List (String × CalEntry)))
deriving DecidableEq

/-- Modelled from the spec: `compile_ldm_unet` lives in the repository's
`compile_ldm` module, which is not part of the source snapshot; the spec
treats it as the opaque "compile graph from module" service, so it is
embedded as an injective tagging of its arguments. -/
def compile_ldm_unet (m : UNetModule) (use_graph : Bool) : CompiledModule :=
  .ldmCompiled m use_graph

/-- Modelled from the spec: `compile_sgm_unet` lives in the repository's
`compile_sgm` module, which is not part of the source snapshot; embedded
as an injective tagging of its arguments. -/
def compile_sgm_unet (m : UNetModule) (use_graph : Bool) : CompiledModule :=
  .sgmCompiled m use_graph

/-- Modelled from the spec: `quantize_model` belongs to the external
quantization collaborator (`quantize(module, calibrate_info) -> module`);
embedded as an injective tagging that records which calibration info the
collaborator was handed. -/
def quantize_model (c : CompiledModule) (calibrate_info : Option (List (String × CalEntry))) :
    CompiledModule :=
  .quantized c calibrate_info

/-- Display name of the module's Python class, used in the warning text. -/
def UNetModule.typeName : UNetModule → String
  | .ldm _ => "ldm.modules.diffusionmodules.openaimodel.UNetModel"
  | .sgm _ => "sgm.modules.diffusionmodules.openaimodel.UNetModel"
  | .other _ => "unrecognized"

/-- The `RuntimeWarning` text `compile_unet` emits for an unsupported
module type. -/
def unsupportedWarning (m : UNetModule) : String :=
  "Unsupported model type: " ++ m.typeName ++ " for compilation , skip"

/-- First stage of `compile_unet` (lines 67-80): dispatch on the module
type, producing the `compiled_unet` value and the warnings emitted. -/
def compile_unet_stage (m : UNetModule) (use_graph : Bool) : CompiledModule × List String :=
  match m with
  | .ldm _ => (compile_ldm_unet m use_graph, [])
  | .sgm _ => (compile_sgm_unet m use_graph, [])
  | .other _ => (.raw m, [unsupportedWarning m])

/-- `compile_unet(unet_model, quantization, use_graph=True)`: the staged
dispatch above, followed by the quantization branch, which reads the
calibration file (embedded as `calFile : Option String`, `none` when the
path does not exist) and hands the result to the quantization
collaborator.  The returned pair carries the warnings emitted; an
`Except.error` is a Python exception escaping the call (possible only
while parsing the calibration file). -/
def compile_unet (m : UNetModule) (quantization : Bool) (use_graph : Bool)
    (calFile : Option String) : Except String (CompiledModule × List String) :=
  let compiled := (compile_unet_stage m use_graph).1
  let warns := (compile_unet_stage m use_graph).2
  if quantization then
    match get_calibrate_info calFile with
    | none => .ok (quantize_model compiled none, warns)
    | some (.ok info) => .ok (quantize_model compiled (some info), warns)
    | some (.error e) => .error e
  else
    .ok (compiled, warns)

/-! ## The webui script (`Script.need_compile`, `Script.run`)

Source: `onediff_sd_webui_extensions/scripts/onediff.py`, lines 107-217.
The module-level globals `compiled_unet` and `compiled_ckpt_name` and the
class attribute `Script.current_type` become an explicit `ScriptState`. -/

/-- The model-type signature `need_compile` builds: the four
architecture-family flags read from the model (`getattr(model, key,
False)`). -/
structure ModelType where
  is_sdxl : Bool
  is_sd2 : Bool
  is_sd1 : Bool
  is_ssd : Bool
deriving DecidableEq, Repr

/-- The slice of `shared.sd_model` the script reads: the four family
flags and the live diffusion model (`sd_model.model.diffusion_model`). -/
structure SdModel where
  is_sdxl : Bool
  is_sd2 : Bool
  is_sd1 : Bool
  is_ssd : Bool
  diffusion_model : UNetModule
deriving DecidableEq, Repr

/-- The `get_model_type` helper inside `need_compile`. -/
def get_model_type (m : SdModel) : ModelType :=
  ⟨m.is_sdxl, m.is_sd2, m.is_sd1, m.is_ssd⟩

namespace Script

/-- `Script.need_compile(model)`: recompile when no signature is stored
yet or any stored flag differs from the model's current flag; the stored
signature (`Script.current_type`) is replaced exactly when recompilation
is decided.  Returns `(recompile, updated current_type)`.  (The
`RuntimeWarning` about `ONEFLOW_MLIR_ENABLE_INFERENCE_OPTIMIZATION`
emitted on the no-recompile path changes no state and is not modelled.) -/
def need_compile (current_type : Option ModelType) (model : SdModel) :
    Bool × Option ModelType :=
  let recompile :=
    match current_type with
    | none => true
    | some t =>
      t.is_sdxl != model.is_sdxl || t.is_sd2 != model.is_sd2 ||
        t.is_sd1 != model.is_sd1 || t.is_ssd != model.is_ssd
  (recompile, if recompile then some (get_model_type model) else current_type)

/-- The mutable state `Script.run` reads and writes: the two module-level
globals and the `Script.current_type` class attribute. -/
structure ScriptState where
  compiled_unet : Option CompiledModule
  compiled_ckpt_name : Option String
  current_type : Option ModelType
deriving DecidableEq

/-- `Script.run(p, quantization)` up to the compile decision (lines
183-213): compute `ckpt_name` (checkpoint plus `"_quantized"` suffix when
quantizing) and recompile when `quantization and ckpt_name !=
compiled_ckpt_name` or — only evaluated otherwise, mirroring Python's
short-circuit, so `current_type` is untouched when the first disjunct
decides — `need_compile(shared.sd_model)` says so; otherwise the
previously compiled module is kept.  Returns the new state and whether
`compile_unet` ran; an `Except.error` is an exception escaping
`compile_unet`.  (The subsequent scoped substitution around
`process_images` is modelled separately by `runWithUnetCompileCtx`.) -/
def run (st : ScriptState) (model : SdModel) (current_checkpoint : String)
    (quantization : Bool) (calFile : Option String) :
    Except String (ScriptState × Bool) :=
  let ckpt_name := if quantization then current_checkpoint ++ "_quantized" else current_checkpoint
  if quantization && decide (st.compiled_ckpt_name ≠ some ckpt_name) then
    (compile_unet model.diffusion_model quantization true calFile).map fun cw =>
      ({ st with compiled_unet := some cw.1, compiled_ckpt_name := some ckpt_name }, true)
  else
    let nc := need_compile st.current_type model
    let st' := { st with current_type := nc.2 }
    if nc.1 then
      (compile_unet model.diffusion_model quantization true calFile).map fun cw =>
        ({ st' with compiled_unet := some cw.1, compiled_ckpt_name := some ckpt_name }, true)
    else
      .ok (st', false)

end Script

/-! ## Scoped substitution (`UnetCompileCtx`)

Source: `onediff_sd_webui_extensions/scripts/onediff.py`, lines 91-104 and
215-217.  The context manager swaps the compiled UNet into
`shared.sd_model.model.diffusion_model` for the duration of
`process_images` and restores the original afterwards; `__exit__` returns
`False`, so it never suppresses an exception. -/

/-- The slice of webui shared state the context manager touches: the live
diffusion-model slot (which can hold the original module or the global
`compiled_unet`, itself possibly `None`), plus a stand-in field for
everything else the wrapped call may mutate. -/
structure SharedModelState where
  diffusion_model : Option CompiledModule
  rest : Nat
deriving DecidableEq

/-- `UnetCompileCtx.__enter__`: save the current diffusion model in the
context object and substitute the global `compiled_unet`. -/
def unetCompileCtxEnter (compiled_unet : Option CompiledModule) (s : SharedModelState) :
    Option CompiledModule × SharedModelState :=
  (s.diffusion_model, { s with diffusion_model := compiled_unet })

/-- `UnetCompileCtx.__exit__`: restore the saved model and return
`False` (never suppress the exception). -/
def unetCompileCtxExit (saved : Option CompiledModule) (s : SharedModelState) :
    Bool × SharedModelState :=
  (false, { s with diffusion_model := saved })

/-- Semantics of a Python `with` statement over explicit state: run
`enter`, run the body (which may end in an exception), then always run
`exit`; a truthy `exit` result suppresses the body's exception, in which
case the block produces no value. -/
def pyWith {σ γ α : Type} (enter : σ → γ × σ) (exit : γ → σ → Bool × σ)
    (body : σ → Except String α × σ) (s : σ) : Except String (Option α) × σ :=
  let es := enter s
  match body es.2 with
  | (.ok a, s₂) =>
    let xs := exit es.1 s₂
    (.ok (some a), xs.2)
  | (.error e, s₂) =>
    let xs := exit es.1 s₂
    (if xs.1 then .ok none else .error e, xs.2)

/-- `with UnetCompileCtx(): body` as executed by `Script.run` (line 215)
around `process_images`. -/
def runWithUnetCompileCtx {α : Type} (compiled_unet : Option CompiledModule)
    (body : SharedModelState → Except String α × SharedModelState) (s : SharedModelState) :
    Except String (Option α) × SharedModelState :=
  pyWith (unetCompileCtxEnter compiled_unet) unetCompileCtxExit body s

/-! ## The deployable module wrapper (`OneflowDeployableModule`)

Source: `src/onediff/infer_compiler/oneflow/deployable_module.py`.
The wrapper's mutable attributes become an explicit state structure; the
oneflow runtime objects it owns (the compiled `oneflow.nn.Graph`, the
mixed dual module) are represented by the attributes the wrapper itself
reads and writes. -/

/-- The `OneflowCompileOptions` fields the wrapper reads.  Modelled from
the spec ("CompileOptions: whether to use the compiled path at all,
maximum number of cached graph variants, debug verbosity level, ... and
the graph file path"): the class itself lives in
`infer_compiler/utils/options.py`, outside the source snapshot. -/
structure OneflowCompileOptions where
  use_graph : Bool
  max_cached_graph_size : Nat
  debug_level : Int
  graph_file : Option String
deriving DecidableEq, Repr

/-- A backend-compiled graph handle (`oneflow.nn.Graph` as the wrapper
uses it): the device its state tensors live on (`next(graph._state())
.device`), its block count (`len(graph._blocks)`), and the builder
arguments it was created with.  Modelled from the spec
("CompiledGraphHandle owns a reference to the backend-compiled graph
object"): oneflow is an external collaborator. -/
structure DplGraph where
  device : String
  blocks : Nat
  max_cached_graph_size : Nat
  dynamic : Bool
deriving DecidableEq, Repr

/-- Modelled from the spec: `get_oneflow_graph` (in
`oneflow/utils.py`, outside the snapshot) is the opaque "compile graph
from module" service; it builds a graph over the dual module's oneflow
module, so the handle is bound to that module's device and holds the
module as its one block. -/
def get_oneflow_graph (device : String) (size : Nat) (dynamic : Bool) : DplGraph :=
  ⟨device, 1, size, dynamic⟩

/-- The wrapper state: device of the dual module's parameters, whether
the dual module currently holds its oneflow counterpart (`del ...
oneflow_module` drops it), the dynamic-shape flag, the options snapshot,
the lazily built graph handle, and the first-run flag for graph-file
loading. -/
structure OneflowDeployableModule where
  model_device : String
  oneflow_module_present : Bool
  enable_dynamic : Bool
  options : OneflowCompileOptions
  dpl_graph : Option DplGraph
  load_graph_first_run : Bool
deriving DecidableEq, Repr

namespace OneflowDeployableModule

/-- `get_graph` (lines 59-74): return the stored handle if there is one;
otherwise build one with `get_oneflow_graph` and store it.  The third
component records whether this call compiled.  (The `debug` calls on the
fresh graph configure verbosity on the backend object and change none of
the modelled state.) -/
def get_graph (s : OneflowDeployableModule) : DplGraph × OneflowDeployableModule × Bool :=
  match s.dpl_graph with
  | some g => (g, s, false)
  | none =>
    let g := get_oneflow_graph s.model_device s.options.max_cached_graph_size s.enable_dynamic
    (g, { s with dpl_graph := some g }, true)

/-- What a call on the wrapper returns: an execution of the compiled
graph on the inputs, or an eager execution of the oneflow module.  The
backend execution itself is the spec's opaque "execute graph with
inputs" service, so the output is represented by the application itself. -/
inductive BackendOutput where
  | graphOut (g : DplGraph) (input : Nat)
  | eagerOut (input : Nat)
deriving DecidableEq, Repr

/-- `forward` (lines 95-103): with `use_graph`, fetch (or lazily build)
the graph and execute it; otherwise run the oneflow module eagerly.
Returns output, new state, and whether this call compiled.  (The
decorators on `forward` marshal arguments, annotate exceptions and manage
the optional graph file; they live in `infer_compiler/utils`, outside the
snapshot, and none of them builds a graph.) -/
def forward (s : OneflowDeployableModule) (x : Nat) :
    BackendOutput × OneflowDeployableModule × Bool :=
  if s.options.use_graph then
    let r := get_graph s
    (.graphOut r.1 x, r.2.1, r.2.2)
  else
    (.eagerOut x, s, false)

/-- Modelled from the spec: `check_device` (in
`infer_compiler/utils/param_utils.py`, outside the snapshot) compares the
graph's bound device with the requested one; a mismatch is the fatal
`DeviceMismatch` of the spec. -/
def check_device (current target : String) : Bool :=
  current = target

/-- The `RuntimeError` text `to` raises on a device mismatch. -/
def deviceMismatchMsg (current target : String) : String :=
  "After graph built, the device of graph can't be modified, current device: " ++
    current ++ ", target device: " ++ target

/-- Moving the dual module (`self._deployable_module_model.to(...)`): a
device argument relocates the module's parameters; a call without one
(for example only a dtype) leaves the device alone. -/
def moveTo (s : OneflowDeployableModule) (target : Option String) : OneflowDeployableModule :=
  match target with
  | some d => { s with model_device := d }
  | none => s

/-- `to` (lines 105-122), with the device already extracted from
`args`/`kwargs` (`parse_device`): with no graph built, delegate to the
dual module and return the wrapper; with a built graph and a device
argument, raise on a device mismatch before any movement, else move.
The first component is the raised error, `none` when the call returns
normally. -/
def «to» (s : OneflowDeployableModule) (target_device : Option String) :
    Option String × OneflowDeployableModule :=
  match s.dpl_graph with
  | none => (none, moveTo s target_device)
  | some g =>
    match target_device with
    | some tgt =>
      if 0 < g.blocks ∧ ¬ check_device g.device tgt then
        (some (deviceMismatchMsg g.device tgt), s)
      else
        (none, moveTo s target_device)
    | none => (none, moveTo s target_device)

/-- `get_graph_file` (lines 176-177). -/
def get_graph_file (s : OneflowDeployableModule) : Option String :=
  s.options.graph_file

/-- `_clear_old_graph` (lines 171-174): reset the first-run flag, drop
the graph handle, and delete the dual module's oneflow counterpart. -/
def clear_old_graph (s : OneflowDeployableModule) : OneflowDeployableModule :=
  { s with
    load_graph_first_run := true
    dpl_graph := none
    oneflow_module_present := false }

/-- `set_graph_file` (lines 157-169): return immediately when the new
path is truthy and equals the stored one; otherwise store the new path
and clear the old graph data. -/
def set_graph_file (s : OneflowDeployableModule) (file_path : String) :
    OneflowDeployableModule :=
  let old_file_path := get_graph_file s
  if file_path ≠ "" ∧ old_file_path = some file_path then
    s
  else
    clear_old_graph { s with options := { s.options with graph_file := some file_path } }

end OneflowDeployableModule

/-! ## The tensor bridge (`wrapped_forward`)

Source: `src/onediff/infer_compiler/__init__.py`, lines 22-41.  Input
tensors cross into the backend via
`flow.utils.tensor.from_torch(value.contiguous())` mapped over the
argument tree's leaves, and outputs come back through
`flow.utils.tensor.to_torch`.  Tensors are modelled by their numerical
content (the list of element bit-patterns): memory layout lives below
this embedding, and `contiguous()` changes layout only, never content, so
here it is the content-identity. -/

/-- A host (torch) tensor, by content. -/
structure TorchTensor where
  data : List Int
deriving DecidableEq, Repr

/-- A backend (oneflow) tensor, by content. -/
structure FlowTensor where
  data : List Int
deriving DecidableEq, Repr

/-- `Tensor.contiguous()`: forces a contiguous layout; bit-for-bit
content-preserving. -/
def TorchTensor.contiguous (t : TorchTensor) : TorchTensor :=
  ⟨t.data⟩

/-- Modelled from the spec: `flow.utils.tensor.from_torch` belongs to the
external tensor runtime; a "pure representation change, no numeric
transformation". -/
def from_torch (t : TorchTensor) : FlowTensor :=
  ⟨t.data⟩

/-- Modelled from the spec: `flow.utils.tensor.to_torch`, the inverse
representation change. -/
def to_torch (t : FlowTensor) : TorchTensor :=
  ⟨t.data⟩

/-- A host-side argument tree as `ArgsTree` walks it: tensor leaves,
non-tensor (scalar) leaves, sequences, and string-keyed mappings. -/
inductive HostValue where
  | tensor (t : TorchTensor)
  | scalar (z : Int)
  | seq (elems : List HostValue)
  | dict (entries : List (String × HostValue))

/-- The same tree shape on the backend side. -/
inductive BackendValue where
  | tensor (t : FlowTensor)
  | scalar (z : Int)
  | seq (elems : List BackendValue)
  | dict (entries : List (String × BackendValue))

mutual

/-- `to_backend`: the `input_fn` of `wrapped_forward` — convert torch
tensor leaves with `from_torch(value.contiguous())`, pass any other leaf
through unchanged — mapped structure-preservingly over the tree
(`ArgsTree.map_leaf`; the tree walk itself is the external runtime's,
specified as a "structure-preserving recursive map over arbitrary nesting
of sequences and mappings"). -/
def to_backend : HostValue → BackendValue
  | .tensor t => .tensor (from_torch t.contiguous)
  | .scalar z => .scalar z
  | .seq l => .seq (to_backendList l)
  | .dict l => .dict (to_backendDict l)

/-- `to_backend` on a sequence of children. -/
def to_backendList : List HostValue → List BackendValue
  | [] => []
  | v :: vs => to_backend v :: to_backendList vs

/-- `to_backend` on mapping entries. -/
def to_backendDict : List (String × HostValue) → List (String × BackendValue)
  | [] => []
  | (k, v) :: vs => (k, to_backend v) :: to_backendDict vs

end

mutual

/-- `to_host`: the inverse mapping — backend tensor leaves through
`to_torch`, other leaves unchanged, structure preserved (the output
conversion of `wrapped_forward`, extended over nesting as the spec's
Tensor Bridge contract states it). -/
def to_host : BackendValue → HostValue
  | .tensor t => .tensor (to_torch t)
  | .scalar z => .scalar z
  | .seq l => .seq (to_hostList l)
  | .dict l => .dict (to_hostDict l)

/-- `to_host` on a sequence of children. -/
def to_hostList : List BackendValue → List HostValue
  | [] => []
  | v :: vs => to_host v :: to_hostList vs

/-- `to_host` on mapping entries. -/
def to_hostDict : List (String × BackendValue) → List (String × HostValue)
  | [] => []
  | (k, v) :: vs => (k, to_host v) :: to_hostDict vs

end

mutual

/-- Round trip on one value. -/
theorem to_host_to_backend_val : ∀ v : HostValue, to_host (to_backend v) = v
  | .tensor t => by
    simp [to_backend, to_host, from_torch, to_torch, TorchTensor.contiguous]
  | .scalar z => by
    simp [to_backend, to_host]
  | .seq l => by
    simp [to_backend, to_host, to_host_to_backend_list l]
  | .dict l => by
    simp [to_backend, to_host, to_host_to_backend_dict l]

/-- Round trip on a list of children. -/
theorem to_host_to_backend_list : ∀ l : List HostValue, to_hostList (to_backendList l) = l
  | [] => by simp [to_backendList, to_hostList]
  | v :: vs => by
    simp [to_backendList, to_hostList, to_host_to_backend_val v, to_host_to_backend_list vs]

/-- Round trip on mapping entries. -/
theorem to_host_to_backend_dict :
    ∀ l : List (String × HostValue), to_hostDict (to_backendDict l) = l
  | [] => by simp [to_backendDict, to_hostDict]
  | (k, v) :: vs => by
    simp [to_backendDict, to_hostDict, to_host_to_backend_val v, to_host_to_backend_dict vs]

end

end OneDiff


/-!
## Theorems

One theorem per claim of the specification review, each preceded by a doc
comment naming the claim; auxiliary witness and counterexample theorems
instantiate them at concrete inputs.
-/

namespace OneDiff

/-- C3: for every value that is a host tensor, a scalar, or an
arbitrarily nested structure of sequences and mappings containing tensors
and scalars, `to_host (to_backend x) = x`: structure preserved,
non-tensor leaves passed through unchanged, and tensor numerical content
preserved bit-for-bit (tensors are modelled by their content; layout is
below this embedding). -/
theorem tensor_bridge_roundtrip (v : HostValue) : to_host (to_backend v) = v :=
  to_host_to_backend_val v

/-- C2: `need_compile(model)` returns true if and only if the stored last
signature is empty (first run) or at least one of the four
architecture-family flags (`is_sdxl`, `is_sd2`, `is_sd1`, `is_ssd`) of
the current model differs from the stored signature; on a true result the
stored signature becomes the current model's signature, on a false result
it is left unchanged. -/
theorem need_compile_spec (cur : Option ModelType) (model : SdModel) :
    ((Script.need_compile cur model).1 = true ↔
      cur = none ∨ ∃ t, cur = some t ∧
        (t.is_sdxl ≠ model.is_sdxl ∨ t.is_sd2 ≠ model.is_sd2 ∨
          t.is_sd1 ≠ model.is_sd1 ∨ t.is_ssd ≠ model.is_ssd)) ∧
    ((Script.need_compile cur model).1 = true →
      (Script.need_compile cur model).2 = some (get_model_type model)) ∧
    ((Script.need_compile cur model).1 = false →
      (Script.need_compile cur model).2 = cur) := by
  cases cur with
  | none => simp [Script.need_compile]
  | some t =>
    by_cases hb :
        (t.is_sdxl != model.is_sdxl || t.is_sd2 != model.is_sd2 ||
          t.is_sd1 != model.is_sd1 || t.is_ssd != model.is_ssd) = true
    · refine ⟨?_, ?_, ?_⟩
      · simp only [Script.need_compile, hb]
        simp only [Bool.or_eq_true, bne_iff_ne] at hb
        simp
        tauto
      · intro _
        simp [Script.need_compile, hb]
      · intro hfalse
        simp [Script.need_compile, hb] at hfalse
    · refine ⟨?_, ?_, ?_⟩
      · simp only [Script.need_compile, hb]
        simp only [Bool.or_eq_true, bne_iff_ne] at hb
        push_neg at hb
        simp
        tauto
      · intro htrue
        simp [Script.need_compile, hb] at htrue
      · intro _
        simp [Script.need_compile, hb]

/-- Witness for C2: on the first run (empty stored signature) the
decision is true and the signature is stored. -/
theorem need_compile_spec_witness :
    (Script.need_compile none ⟨true, false, false, false, .ldm 0⟩).1 = true ∧
    (Script.need_compile none ⟨true, false, false, false, .ldm 0⟩).2 =
      some (get_model_type ⟨true, false, false, false, .ldm 0⟩) := by
  have h := need_compile_spec none ⟨true, false, false, false, .ldm 0⟩
  exact ⟨h.1.mpr (Or.inl rfl), h.2.1 (h.1.mpr (Or.inl rfl))⟩

/-- C6: for every module whose type is neither the LDM `UNetModel` nor
the SGM `UNetModel`, `compile_unet` (without quantization, its default)
does not raise: it returns normally with the unsupported-type
`RuntimeWarning` and hands back the original uncompiled module
unchanged. -/
theorem compile_unet_unsupported_spec (m : UNetModule) (calFile : Option String)
    (hl : m.isLdm = false) (hs : m.isSgm = false) :
    compile_unet m false true calFile = .ok (.raw m, [unsupportedWarning m]) := by
  cases m with
  | ldm i => simp [UNetModule.isLdm] at hl
  | sgm i => simp [UNetModule.isSgm] at hs
  | other i => rfl

/-- Witness for C6: a module of unrecognized type is returned as-is with
the warning. -/
theorem compile_unet_unsupported_spec_witness :
    compile_unet (.other 0) false true none =
      .ok (.raw (.other 0), [unsupportedWarning (.other 0)]) :=
  compile_unet_unsupported_spec (.other 0) none rfl rfl

/-- C10: when the calibration file does not exist, `get_calibrate_info`
returns `None` instead of raising, and `compile_unet` with quantization
enabled still proceeds, passing `calibrate_info=None` to the quantization
collaborator. -/
theorem compile_unet_missing_calibration_spec (m : UNetModule) :
    get_calibrate_info none = none ∧
    compile_unet m true true none =
      .ok (quantize_model (compile_unet_stage m true).1 none,
        (compile_unet_stage m true).2) :=
  ⟨rfl, rfl⟩

/-- C7: `get_calibrate_info` parses the line
`conv1 0.5 3 1.0,2.0,3.0` of an existing calibration file into the
mapping entry `conv1 -> [0.5, 3, [1.0, 2.0, 3.0]]`. -/
theorem get_calibrate_info_conv1 :
    get_calibrate_info (some "conv1 0.5 3 1.0,2.0,3.0") =
      some (.ok [("conv1", ((1 : ℚ) / 2, (3 : ℤ), [1, 2, 3]))]) := by
  have h : buildCalDict (pyReadLines "conv1 0.5 3 1.0,2.0,3.0") [] =
      .ok [("conv1", ⟨⟨false, 0, 5, 1⟩, (3 : ℤ),
        [⟨false, 1, 0, 1⟩, ⟨false, 2, 0, 1⟩, ⟨false, 3, 0, 1⟩]⟩)] := by decide
  simp [get_calibrate_info, h, entryOfParts, floatOfParts, Except.map, List.map]
  norm_num

/-- C4: for every path `p`, calling `set_graph_file(p)` a second time
with the same `p` leaves the wrapper state unchanged; when the state
already records `p` (as it does after a first call with a nonempty path),
the call is a full no-op — graph handle, first-run flag and the dual
module's oneflow counterpart untouched; calling it with a path different
from the current graph file discards the built graph (handle dropped,
first-run flag reset) so the next call rebuilds or reloads. -/
theorem set_graph_file_spec (s : OneflowDeployableModule) (p : String) :
    (OneflowDeployableModule.set_graph_file (OneflowDeployableModule.set_graph_file s p) p =
      OneflowDeployableModule.set_graph_file s p) ∧
    (p ≠ "" → s.options.graph_file = some p →
      OneflowDeployableModule.set_graph_file s p = s) ∧
    (s.options.graph_file ≠ some p →
      (OneflowDeployableModule.set_graph_file s p).dpl_graph = none ∧
      (OneflowDeployableModule.set_graph_file s p).load_graph_first_run = true ∧
      (OneflowDeployableModule.set_graph_file s p).oneflow_module_present = false ∧
      (OneflowDeployableModule.set_graph_file s p).options.graph_file = some p) := by
  refine ⟨?_, ?_, ?_⟩
  · by_cases hp : p = ""
    · subst hp
      simp [OneflowDeployableModule.set_graph_file, OneflowDeployableModule.get_graph_file,
        OneflowDeployableModule.clear_old_graph]
    · by_cases hold : s.options.graph_file = some p
      · simp [OneflowDeployableModule.set_graph_file, OneflowDeployableModule.get_graph_file,
          hp, hold]
      · simp [OneflowDeployableModule.set_graph_file, OneflowDeployableModule.get_graph_file,
          hp, hold, OneflowDeployableModule.clear_old_graph]
  · intro hp hold
    simp [OneflowDeployableModule.set_graph_file, OneflowDeployableModule.get_graph_file,
      hp, hold]
  · intro hold
    by_cases hp : p = ""
    · subst hp
      simp [OneflowDeployableModule.set_graph_file, OneflowDeployableModule.get_graph_file,
        OneflowDeployableModule.clear_old_graph]
    · simp [OneflowDeployableModule.set_graph_file, OneflowDeployableModule.get_graph_file,
        hp, hold, OneflowDeployableModule.clear_old_graph]

/-- Witness for C4: with `"g1"` stored and a graph built, a repeated
`set_graph_file "g1"` is a no-op and a `set_graph_file "g2"` discards the
graph. -/
theorem set_graph_file_spec_witness :
    (OneflowDeployableModule.set_graph_file
        ⟨"cuda", true, true, ⟨true, 9, 0, some "g1"⟩, some ⟨"cuda", 1, 9, true⟩, false⟩ "g1" =
      ⟨"cuda", true, true, ⟨true, 9, 0, some "g1"⟩, some ⟨"cuda", 1, 9, true⟩, false⟩) ∧
    (OneflowDeployableModule.set_graph_file
        ⟨"cuda", true, true, ⟨true, 9, 0, some "g1"⟩, some ⟨"cuda", 1, 9, true⟩, false⟩
        "g2").dpl_graph = none := by
  refine ⟨(set_graph_file_spec _ "g1").2.1 (by decide) rfl,
    ((set_graph_file_spec _ "g2").2.2 (by decide)).1⟩

/-- C5: with a graph already built on device `Y` (the handle holds at
least one block), calling `to(device=X)` with `X ≠ Y` raises the
device-mismatch `RuntimeError` before any module movement: the wrapper
state, including the compiled graph handle, is returned exactly as it
was.  With no graph built, `to` delegates to the dual module and returns
the wrapper. -/
theorem to_device_mismatch_spec (s : OneflowDeployableModule) (g : DplGraph) (X : String) :
    (s.dpl_graph = some g → 0 < g.blocks → g.device ≠ X →
      OneflowDeployableModule.to s (some X) =
        (some (OneflowDeployableModule.deviceMismatchMsg g.device X), s)) ∧
    (s.dpl_graph = none → ∀ d : Option String,
      OneflowDeployableModule.to s d = (none, OneflowDeployableModule.moveTo s d)) := by
  constructor
  · intro hg hb hd
    simp [OneflowDeployableModule.to, hg, hb, hd, OneflowDeployableModule.check_device]
  · intro hg d
    simp [OneflowDeployableModule.to, hg]

/-- Witness for C5: a wrapper whose graph was built on `"cuda:0"` rejects
a move to `"cpu"` and keeps its state; a graphless wrapper delegates. -/
theorem to_device_mismatch_spec_witness :
    (OneflowDeployableModule.to
        ⟨"cuda:0", true, true, ⟨true, 9, 0, none⟩, some ⟨"cuda:0", 1, 9, true⟩, false⟩
        (some "cpu") =
      (some (OneflowDeployableModule.deviceMismatchMsg "cuda:0" "cpu"),
        ⟨"cuda:0", true, true, ⟨true, 9, 0, none⟩, some ⟨"cuda:0", 1, 9, true⟩, false⟩)) ∧
    (OneflowDeployableModule.to
        ⟨"cuda:0", true, true, ⟨true, 9, 0, none⟩, none, true⟩ (some "cpu") =
      (none, OneflowDeployableModule.moveTo
        ⟨"cuda:0", true, true, ⟨true, 9, 0, none⟩, none, true⟩ (some "cpu"))) := by
  refine ⟨(to_device_mismatch_spec _ ⟨"cuda:0", 1, 9, true⟩ "cpu").1 rfl (by decide) (by decide),
    (to_device_mismatch_spec _ ⟨"cuda:0", 1, 9, true⟩ "cpu").2 rfl (some "cpu")⟩

/-- C9: once a graph handle is stored (the wrapper's handle is not
`None`), `get_graph` returns that identical handle with the state
untouched and no compilation, and a `forward` call with `use_graph`
enabled returns an execution of that same handle, again compiling
nothing; consequently the second of two consecutive `forward` calls with
the same input never compiles, so two calls compile at most once. -/
theorem get_graph_forward_idempotent (s : OneflowDeployableModule) (g : DplGraph) (x : Nat) :
    (s.dpl_graph = some g →
      OneflowDeployableModule.get_graph s = (g, s, false) ∧
      (s.options.use_graph = true →
        OneflowDeployableModule.forward s x = (.graphOut g x, s, false))) ∧
    ((OneflowDeployableModule.forward
        ((OneflowDeployableModule.forward s x).2.1) x).2.2 = false) := by
  constructor
  · intro hg
    constructor
    · simp [OneflowDeployableModule.get_graph, hg]
    · intro hu
      simp [OneflowDeployableModule.forward, OneflowDeployableModule.get_graph, hg, hu]
  · by_cases hu : s.options.use_graph = true
    · cases hgr : s.dpl_graph with
      | some g₀ =>
        simp [OneflowDeployableModule.forward, OneflowDeployableModule.get_graph, hgr, hu]
      | none =>
        simp [OneflowDeployableModule.forward, OneflowDeployableModule.get_graph, hgr, hu]
    · simp [OneflowDeployableModule.forward, hu]

/-- Witness for C9: a wrapper with a stored handle reuses it in
`get_graph` and in `forward`, with no compilation. -/
theorem get_graph_forward_idempotent_witness :
    (OneflowDeployableModule.get_graph
        ⟨"cuda", true, true, ⟨true, 9, 0, none⟩, some ⟨"cuda", 1, 9, true⟩, false⟩ =
      (⟨"cuda", 1, 9, true⟩,
        ⟨"cuda", true, true, ⟨true, 9, 0, none⟩, some ⟨"cuda", 1, 9, true⟩, false⟩, false)) ∧
    (OneflowDeployableModule.forward
        ⟨"cuda", true, true, ⟨true, 9, 0, none⟩, some ⟨"cuda", 1, 9, true⟩, false⟩ 5 =
      (.graphOut ⟨"cuda", 1, 9, true⟩ 5,
        ⟨"cuda", true, true, ⟨true, 9, 0, none⟩, some ⟨"cuda", 1, 9, true⟩, false⟩, false)) := by
  refine ⟨((get_graph_forward_idempotent _ ⟨"cuda", 1, 9, true⟩ 5).1 rfl).1,
    ((get_graph_forward_idempotent _ ⟨"cuda", 1, 9, true⟩ 5).1 rfl).2 rfl⟩

/-- C8: the scoped substitution replaces the shared diffusion model with
the compiled UNet for the duration of the wrapped call and restores the
original afterwards in every case — the wrapped call runs on the
substituted state, the final state carries the original diffusion model
back while keeping the call's other effects, and an exception from the
call propagates unswallowed (`__exit__` returns `False`). -/
theorem unet_compile_ctx_spec {α : Type} (compiled_unet : Option CompiledModule)
    (s : SharedModelState)
    (body : SharedModelState → Except String α × SharedModelState) :
    runWithUnetCompileCtx compiled_unet body s =
      (Except.map some (body { s with diffusion_model := compiled_unet }).1,
        { (body { s with diffusion_model := compiled_unet }).2 with
          diffusion_model := s.diffusion_model }) := by
  unfold runWithUnetCompileCtx pyWith unetCompileCtxEnter unetCompileCtxExit
  rcases hb : body { s with diffusion_model := compiled_unet } with ⟨r, s₂⟩
  cases r <;> simp [hb, Except.map]

/-- Helper: the updated signature `need_compile` returns is the model's
signature exactly when recompilation was decided, else the old one. -/
theorem need_compile_snd_eq (cur : Option ModelType) (m : SdModel) :
    (Script.need_compile cur m).2 =
      if (Script.need_compile cur m).1 = true then some (get_model_type m) else cur :=
  rfl

/-- C1 counterexample: two consecutive requests whose module identities
(checkpoint name plus quantization flag) differ — `("ckptA", no
quantization)` then `("ckptB", no quantization)` on the same SD1-type
model — where `Script.run` does NOT recompile: the second call returns
the module compiled for `ckptA` unchanged with no `compile_unet`
invocation, refuting "unequal identities force recompilation". -/
theorem run_checkpoint_change_cex :
    Script.run ⟨none, none, none⟩ ⟨false, false, true, false, .ldm 7⟩ "ckptA" false none =
      .ok (⟨some (.ldmCompiled (.ldm 7) true), some "ckptA",
        some ⟨false, false, true, false⟩⟩, true) ∧
    Script.run
        ⟨some (.ldmCompiled (.ldm 7) true), some "ckptA", some ⟨false, false, true, false⟩⟩
        ⟨false, false, true, false, .ldm 7⟩ "ckptB" false none =
      .ok (⟨some (.ldmCompiled (.ldm 7) true), some "ckptA",
        some ⟨false, false, true, false⟩⟩, false) ∧
    ("ckptA" : String) ≠ "ckptB" :=
  ⟨rfl, rfl, by decide⟩

/-- C1 (amended): `Script.run` recompiles exactly when quantization is
enabled and the suffixed checkpoint name differs from the stored compiled
name, or when `need_compile` decides so from the model-type signature
(first run or changed family flags); when the stored identity equals the
request's and the signature is unchanged, the previously compiled module
is reused with no rebuild.  A checkpoint-name change alone, with
quantization off and an unchanged signature, does not recompile. -/
theorem run_compile_decision_amended (st : Script.ScriptState) (model : SdModel)
    (ckpt : String) (quant : Bool) :
    (st.compiled_ckpt_name = some (if quant then ckpt ++ "_quantized" else ckpt) →
      st.current_type = some (get_model_type model) →
      Script.run st model ckpt quant none = .ok (st, false)) ∧
    (quant = true → st.compiled_ckpt_name ≠ some (ckpt ++ "_quantized") →
      Script.run st model ckpt true none =
        .ok ({ st with
          compiled_unet :=
            some (quantize_model (compile_unet_stage model.diffusion_model true).1 none),
          compiled_ckpt_name := some (ckpt ++ "_quantized") }, true)) ∧
    (quant = false → (Script.need_compile st.current_type model).1 = true →
      Script.run st model ckpt false none =
        .ok ({ st with
          compiled_unet := some (compile_unet_stage model.diffusion_model true).1,
          compiled_ckpt_name := some ckpt,
          current_type := some (get_model_type model) }, true)) := by
  refine ⟨?_, ?_, ?_⟩
  · intro h1 h2
    have hnc : Script.need_compile st.current_type model = (false, st.current_type) := by
      rw [h2]
      simp [Script.need_compile, get_model_type]
    simp [Script.run, h1, hnc]
    rw [← h1]
  · intro hq hne
    subst hq
    simp only [Script.run]
    rw [if_pos]
    · have hc : compile_unet model.diffusion_model true true none =
          .ok (quantize_model (compile_unet_stage model.diffusion_model true).1 none,
            (compile_unet_stage model.diffusion_model true).2) := rfl
      simp [hc, Except.map]
    · simp [hne]
  · intro hq hnc
    subst hq
    simp only [Script.run, Bool.false_and, if_neg (by simp : ¬(false = true))]
    have h2 := need_compile_snd_eq st.current_type model
    rw [hnc] at h2
    simp only [if_pos rfl] at h2
    have hc : compile_unet model.diffusion_model false true none =
        .ok ((compile_unet_stage model.diffusion_model true).1,
          (compile_unet_stage model.diffusion_model true).2) := rfl
    simp [hnc, h2, hc, Except.map]

/-- Witness for C1 (amended): equal identity with unchanged signature
reuses; quantization with a new suffixed name recompiles (leaving the
stored signature untouched); a signature change without quantization
recompiles. -/
theorem run_compile_decision_amended_witness :
    Script.run
        ⟨some (.ldmCompiled (.ldm 7) true), some "ckptA", some ⟨false, false, true, false⟩⟩
        ⟨false, false, true, false, .ldm 7⟩ "ckptA" false none =
      .ok (⟨some (.ldmCompiled (.ldm 7) true), some "ckptA",
        some ⟨false, false, true, false⟩⟩, false) ∧
    Script.run ⟨none, none, none⟩ ⟨false, false, true, false, .sgm 2⟩ "ck" true none =
      .ok (⟨some (quantize_model (compile_unet_stage (.sgm 2) true).1 none),
        some ("ck" ++ "_quantized"), none⟩, true) ∧
    Script.run ⟨none, some "ck", none⟩ ⟨true, false, false, false, .ldm 3⟩ "ck" false none =
      .ok (⟨some (compile_unet_stage (.ldm 3) true).1, some "ck",
        some ⟨true, false, false, false⟩⟩, true) := by
  refine ⟨(run_compile_decision_amended _ _ "ckptA" false).1 rfl rfl,
    (run_compile_decision_amended _ ⟨false, false, true, false, .sgm 2⟩ "ck" true).2.1 rfl
      (by decide),
    (run_compile_decision_amended _ ⟨true, false, false, false, .ldm 3⟩ "ck" false).2.2 rfl
      rfl⟩

end OneDiff
